import Mathlib

/-!
# LeetCode Profile Tracker: the fetch handler and the client guard

A shallow embedding of `server/server.js` (the route `POST /api/user/:username`)
and of `fetchUserData` in `client/src/App.js`, followed by the properties of the
specification that concern them.

Modelling conventions.

* The upstream body is typed after the GraphQL query of `server.js` lines 18-41.
  Every object position that JavaScript reads through (`userData.data`,
  `matchedUser`, `profile`, `submitStats`, `acSubmissionNum`,
  `userContestRanking`) is an `Option`: `none` stands for `null` or `undefined`.
  Reading a property of `none` throws a `TypeError`, which the handler catches.
* Solved counts and ranks are GraphQL `Int`s, modelled as `Int`. Sums of three
  32-bit values are exact in JavaScript numbers, so `+` is integer addition.
  The contest rating is a GraphQL `Float`; the handler only tests it for
  truthiness and copies it, so it is modelled as a rational.
* `axios.post` is a parameter `upstream`: it either resolves with a body or
  rejects with an error. The handler result records the requests that were
  issued and what `console.error` printed next to the HTTP response.
-/

namespace LeetCodeTracker

/-! ## Upstream data (server.js lines 18-41) -/

/-- One entry of `acSubmissionNum`: a difficulty label and a solved count. -/
structure Stat where
  difficulty : String
  count : Int
  deriving DecidableEq, Repr

/-- The `submitStats` object of a matched user. -/
structure SubmitStats where
  acSubmissionNum : Option (List Stat)
  deriving DecidableEq, Repr

/-- The `profile` object of a matched user. -/
structure Profile where
  realName : Option String
  userAvatar : Option String
  ranking : Option Int
  deriving DecidableEq, Repr

/-- The `matchedUser` object. -/
structure MatchedUser where
  username : String
  profile : Option Profile
  submitStats : Option SubmitStats
  deriving DecidableEq, Repr

/-- The `userContestRanking` object. -/
structure UserContestRanking where
  rating : Option ℚ
  globalRanking : Option Int
  totalParticipants : Option Int
  attendedContestsCount : Option Int
  deriving DecidableEq, Repr

/-- The GraphQL `data` envelope. -/
structure GraphQLData where
  matchedUser : Option MatchedUser
  userContestRanking : Option UserContestRanking
  deriving DecidableEq, Repr

/-- The body of the upstream HTTP response, `userDataResponse.data` (line 61). -/
structure UserData where
  data : Option GraphQLData
  deriving DecidableEq, Repr

/-! ## Requests, errors and responses -/

/-- The endpoint constant of line 13. -/
def LEETCODE_GRAPHQL : String := "https://leetcode.com/graphql"

/-- The request of lines 51-59. The query text and the headers are constants,
so a request is identified by its URL and the `username` variable. -/
structure UpstreamRequest where
  url : String
  username : String
  deriving DecidableEq, Repr

/-- An error that reaches the `catch` block of line 97. -/
inductive JsError where
  /-- A rejection of `axios.post`, with its `message`. -/
  | rejected (message : String)
  /-- A `TypeError`: `property` was read on `null` or `undefined`. -/
  | typeError (property : String)
  deriving DecidableEq, Repr

/-- The record built on lines 82-94. -/
structure FormattedData where
  username : String
  realName : Option String
  avatar : Option String
  ranking : Option Int
  totalSolved : Int
  easySolved : Int
  mediumSolved : Int
  hardSolved : Int
  contestRating : ℚ
  contestRanking : Int
  attendedContests : Int
  deriving DecidableEq, Repr

/-- What `res.json` is given: an `error` object or the formatted record. -/
inductive JsonBody where
  | error (message : String)
  | profile (formatted : FormattedData)
  deriving DecidableEq, Repr

/-- An HTTP response of the server. -/
structure HttpResponse where
  status : Nat
  body : JsonBody
  deriving DecidableEq, Repr

/-- Everything one run of the handler does. -/
structure Outcome where
  requests : List UpstreamRequest
  logged : List JsError
  response : HttpResponse
  deriving DecidableEq, Repr

/-! ## The handler (server.js lines 46-103) -/

/-- The idiom `v || 0` on a value that is a number, `null` or `undefined`. -/
def orZero {α : Type} [Zero α] [DecidableEq α] (v : Option α) : α :=
  match v with
  | some x => if x = 0 then 0 else x
  | none => 0

/-- Line 76: `submissionStats.find(stat => stat.difficulty === 'Easy')?.count || 0`. -/
def easySolved (submissionStats : List Stat) : Int :=
  orZero ((submissionStats.find? (fun stat => stat.difficulty == "Easy")).map (fun stat => stat.count))

/-- Line 77: the same with `'Medium'`. -/
def mediumSolved (submissionStats : List Stat) : Int :=
  orZero ((submissionStats.find? (fun stat => stat.difficulty == "Medium")).map (fun stat => stat.count))

/-- Line 78: the same with `'Hard'`. -/
def hardSolved (submissionStats : List Stat) : Int :=
  orZero ((submissionStats.find? (fun stat => stat.difficulty == "Hard")).map (fun stat => stat.count))

/-- Line 79: `easySolved + mediumSolved + hardSolved`. -/
def totalSolved (submissionStats : List Stat) : Int :=
  easySolved submissionStats + mediumSolved submissionStats + hardSolved submissionStats

/-- Lines 82-94, once `matchedUser.profile` and the submission list were read. -/
def formattedData (matchedUser : MatchedUser) (profile : Profile)
    (submissionStats : List Stat) (contestData : Option UserContestRanking) : FormattedData :=
  { username := matchedUser.username
    realName := profile.realName
    avatar := profile.userAvatar
    ranking := profile.ranking
    totalSolved := totalSolved submissionStats
    easySolved := easySolved submissionStats
    mediumSolved := mediumSolved submissionStats
    hardSolved := hardSolved submissionStats
    contestRating := orZero (contestData.bind (fun c => c.rating))
    contestRanking := orZero (contestData.bind (fun c => c.globalRanking))
    attendedContests := orZero (contestData.bind (fun c => c.attendedContestsCount)) }

/-- The message of the 404 answer (line 66). -/
def userNotFoundMessage : String := "User not found. Please check the username and try again."

/-- The message of the 500 answer (line 100). -/
def failedMessage : String := "Failed to fetch user data. Please try again later."

/-- Lines 61-96: the part of the `try` block after the upstream call resolved.
It either calls `res` or throws. -/
def tryBody (userData : UserData) : Except JsError HttpResponse :=
  match userData.data with
  | none => .error (.typeError "matchedUser")
  | some data =>
    match data.matchedUser with
    | none => .ok { status := 404, body := .error userNotFoundMessage }
    | some matchedUser =>
      let contestData := data.userContestRanking
      match matchedUser.submitStats with
      | none => .error (.typeError "acSubmissionNum")
      | some submitStats =>
        match submitStats.acSubmissionNum with
        | none => .error (.typeError "find")
        | some submissionStats =>
          match matchedUser.profile with
          | none => .error (.typeError "realName")
          | some profile =>
            .ok { status := 200
                  body := .profile (formattedData matchedUser profile submissionStats contestData) }

/-- The request the handler sends for `username` (lines 51-59). -/
def upstreamRequest (username : String) : UpstreamRequest :=
  { url := LEETCODE_GRAPHQL, username := username }

/-- The route handler of lines 46-103. `username` is `req.params.username`. -/
def postApiUser (upstream : UpstreamRequest → Except JsError UserData) (username : String) :
    Outcome :=
  match (upstream (upstreamRequest username)).bind tryBody with
  | .ok res => { requests := [upstreamRequest username], logged := [], response := res }
  | .error error =>
    { requests := [upstreamRequest username]
      logged := [error]
      response := { status := 500, body := .error failedMessage } }

/-! ## The client (App.js lines 24-50) -/

/-- The characters `String.prototype.trim` strips: ECMAScript WhiteSpace and
LineTerminator code points. -/
def isJsWhiteSpace (c : Char) : Bool :=
  c.toNat ∈ [0x0009, 0x000A, 0x000B, 0x000C, 0x000D, 0x0020, 0x00A0, 0x1680,
    0x2000, 0x2001, 0x2002, 0x2003, 0x2004, 0x2005, 0x2006, 0x2007, 0x2008, 0x2009, 0x200A,
    0x2028, 0x2029, 0x202F, 0x205F, 0x3000, 0xFEFF]

/-- The built-in `String.prototype.trim`. -/
def jsTrim (s : String) : String :=
  String.mk (((s.data.dropWhile isJsWhiteSpace).reverse.dropWhile isJsWhiteSpace).reverse)

/-- The rejection `axios.post` raises in the client: `err.response`, when the
server answered, holds the status and the `error` field of the answer. -/
structure AxiosError where
  response : Option (Nat × Option String)
  deriving DecidableEq, Repr

/-- The React state of `App` that `fetchUserData` writes, the entry it keeps in
`localStorage`, and the URLs it posted to. -/
structure ClientState where
  userData : Option FormattedData
  loading : Bool
  error : String
  lastLeetcodeUsername : Option String
  posted : List String
  deriving DecidableEq, Repr

/-- The idiom `err.response.data.error || 'User not found'` (line 42). -/
def orUserNotFound (message : Option String) : String :=
  match message with
  | some m => if m = "" then "User not found" else m
  | none => "User not found"

/-- The function `fetchUserData` of App.js lines 24-50. `post` stands for
`axios.post` on the backend URL. -/
def fetchUserData (post : String → Except AxiosError FormattedData) (st : ClientState)
    (username : String) : ClientState :=
  if jsTrim username = "" then
    { st with error := "Please enter a username" }
  else
    let url := "http://localhost:5000/api/user/" ++ username
    let st1 := { st with loading := true, error := "", userData := none, posted := st.posted ++ [url] }
    match post url with
    | .ok data =>
      { st1 with userData := some data, lastLeetcodeUsername := some username, loading := false }
    | .error err =>
      match err.response with
      | some (404, message) => { st1 with error := orUserNotFound message, loading := false }
      | _ => { st1 with error := "Failed to fetch data. Please try again.", loading := false }

/-! ## The words of the specification, as definitions -/

/-- Spec-side reading of "the count of the first entry whose difficulty is
`label`, and 0 when no entry has that difficulty", as a property of a value `v`. -/
def FirstMatchOrZero (label : String) (l : List Stat) (v : Int) : Prop :=
  (∀ pre s post, l = pre ++ s :: post → s.difficulty = label →
      (∀ t ∈ pre, t.difficulty ≠ label) → v = s.count) ∧
  ((∀ t ∈ l, t.difficulty ≠ label) → v = 0)

/-- The three labels the handler looks for. -/
def isCountedLabel (stat : Stat) : Bool :=
  stat.difficulty == "Easy" || stat.difficulty == "Medium" || stat.difficulty == "Hard"

/-- A label occurs at most once in a submission list. -/
def AtMostOnce (label : String) (l : List Stat) : Prop :=
  (l.filter (fun stat => stat.difficulty == label)).length ≤ 1

/-! ## Fixtures for the concrete scenarios -/

/-- An upstream whose call resolves with `userData` for every request. -/
def resolvesWith (userData : UserData) : UpstreamRequest → Except JsError UserData :=
  fun _ => .ok userData

/-- An upstream whose call rejects with `error` for every request. -/
def rejectsWith (error : JsError) : UpstreamRequest → Except JsError UserData :=
  fun _ => .error error

/-- A body with a data envelope. -/
def bodyOf (matchedUser : Option MatchedUser) (contest : Option UserContestRanking) : UserData :=
  { data := some { matchedUser := matchedUser, userContestRanking := contest } }

/-- A matched user with a profile object without values and the given submission list. -/
def userWithStats (username : String) (submissionStats : List Stat) : MatchedUser :=
  { username := username
    profile := some { realName := none, userAvatar := none, ranking := none }
    submitStats := some { acSubmissionNum := some submissionStats } }

/-- A matched user with a profile object but no `submitStats` object. -/
def userWithoutStats (username : String) : MatchedUser :=
  { username := username
    profile := some { realName := none, userAvatar := none, ranking := none }
    submitStats := none }

/-- A matched user whose `profile` is null, with the given submission list. -/
def userWithoutProfile (username : String) (submissionStats : List Stat) : MatchedUser :=
  { username := username
    profile := none
    submitStats := some { acSubmissionNum := some submissionStats } }

/-- A contest record of a user who attended three contests. -/
def someContest : UserContestRanking :=
  { rating := some 1500, globalRanking := some 42, totalParticipants := some 100
    attendedContestsCount := some 3 }

/-! ## Helper lemmas -/

theorem orZero_some {α : Type} [Zero α] [DecidableEq α] (x : α) : orZero (some x) = x := by
  simp only [orZero]
  split_ifs with h
  · exact h.symm
  · rfl

theorem orZero_none {α : Type} [Zero α] [DecidableEq α] : orZero (none : Option α) = 0 := rfl

/-- The handler after a resolved upstream call whose body makes `tryBody` answer. -/
theorem postApiUser_of_ok (upstream : UpstreamRequest → Except JsError UserData)
    (username : String) (userData : UserData) (res : HttpResponse)
    (hup : upstream (upstreamRequest username) = .ok userData)
    (hres : tryBody userData = .ok res) :
    postApiUser upstream username =
      { requests := [upstreamRequest username], logged := [], response := res } := by
  simp [postApiUser, hup, Except.bind, hres]

/-- The handler after a resolved upstream call whose body makes `tryBody` throw. -/
theorem postApiUser_of_throw (upstream : UpstreamRequest → Except JsError UserData)
    (username : String) (userData : UserData) (e : JsError)
    (hup : upstream (upstreamRequest username) = .ok userData)
    (hres : tryBody userData = .error e) :
    postApiUser upstream username =
      { requests := [upstreamRequest username], logged := [e]
        response := { status := 500, body := .error failedMessage } } := by
  simp [postApiUser, hup, Except.bind, hres]

/-- The handler after a rejected upstream call. -/
theorem postApiUser_of_rejected (upstream : UpstreamRequest → Except JsError UserData)
    (username : String) (e : JsError)
    (hup : upstream (upstreamRequest username) = .error e) :
    postApiUser upstream username =
      { requests := [upstreamRequest username], logged := [e]
        response := { status := 500, body := .error failedMessage } } := by
  simp [postApiUser, hup, Except.bind]

/-- A successful `tryBody` with a profile record comes from a matched user whose
profile and submission list are present. -/
theorem tryBody_profile_inv (userData : UserData) (status : Nat) (fd : FormattedData)
    (h : tryBody userData = .ok { status := status, body := .profile fd }) :
    ∃ data matchedUser profile submissionStats,
      userData.data = some data ∧ data.matchedUser = some matchedUser ∧
      matchedUser.profile = some profile ∧
      matchedUser.submitStats = some { acSubmissionNum := some submissionStats } ∧
      status = 200 ∧
      fd = formattedData matchedUser profile submissionStats data.userContestRanking := by
  unfold tryBody at h
  split at h
  · cases h
  · rename_i data hdata
    split at h
    · cases h
    · rename_i matchedUser hm
      simp only at h
      split at h
      · cases h
      · rename_i submitStats hs
        split at h
        · cases h
        · rename_i submissionStats hl
          split at h
          · cases h
          · rename_i profile hp
            refine ⟨data, matchedUser, profile, submissionStats, hdata, hm, hp, ?_, ?_, ?_⟩
            · rw [hs]; cases submitStats; simp_all
            · injection h with h1; injection h1 with h2 h3; exact h2.symm
            · injection h with h1; injection h1 with h2 h3; injection h3 with h4; exact h4.symm

/-- A 200 answer of the handler with a profile record comes from a resolved
upstream call and a successful `tryBody`. -/
theorem postApiUser_profile_inv (upstream : UpstreamRequest → Except JsError UserData)
    (username : String) (status : Nat) (fd : FormattedData)
    (h : (postApiUser upstream username).response = { status := status, body := .profile fd }) :
    ∃ userData, upstream (upstreamRequest username) = .ok userData ∧
      tryBody userData = .ok { status := status, body := .profile fd } := by
  unfold postApiUser at h
  cases hup : upstream (upstreamRequest username) with
  | error e => simp [hup, Except.bind] at h
  | ok userData =>
    refine ⟨userData, rfl, ?_⟩
    cases hres : tryBody userData with
    | error e => simp [hup, Except.bind, hres] at h
    | ok res =>
      simp [hup, Except.bind, hres] at h
      rw [h]

/-! ## More helper lemmas -/

theorem find_first_match (label : String) (pre : List Stat) (s : Stat) (post : List Stat)
    (hs : s.difficulty = label) (hpre : ∀ t ∈ pre, t.difficulty ≠ label) :
    (pre ++ s :: post).find? (fun stat => stat.difficulty == label) = some s := by
  induction pre with
  | nil => simp [List.find?, hs]
  | cons a pre ih =>
    have ha : a.difficulty ≠ label := hpre a (List.mem_cons_self _ _)
    have hrest : ∀ t ∈ pre, t.difficulty ≠ label :=
      fun t ht => hpre t (List.mem_cons_of_mem _ ht)
    have hb : (a.difficulty == label) = false := by simpa using ha
    rw [List.cons_append, List.find?_cons, hb]
    exact ih hrest

theorem find_no_match (label : String) (l : List Stat)
    (hl : ∀ t ∈ l, t.difficulty ≠ label) :
    l.find? (fun stat => stat.difficulty == label) = none := by
  rw [List.find?_eq_none]
  intro t ht
  simpa using hl t ht

theorem firstMatchOrZero_find (label : String) (l : List Stat) :
    FirstMatchOrZero label l
      (orZero ((l.find? (fun stat => stat.difficulty == label)).map (fun stat => stat.count))) := by
  constructor
  · intro pre s post hl hs hpre
    rw [hl, find_first_match label pre s post hs hpre]
    exact orZero_some s.count
  · intro hl
    rw [find_no_match label l hl]
    rfl

theorem find_filter_counted (label : String) (l : List Stat)
    (h : ∀ stat : Stat, stat.difficulty = label → isCountedLabel stat = true) :
    (l.filter isCountedLabel).find? (fun stat => stat.difficulty == label) =
      l.find? (fun stat => stat.difficulty == label) := by
  rw [List.find?_filter]
  congr 1
  funext stat
  by_cases hs : stat.difficulty = label
  · simp [hs, h stat hs]
  · simp [hs]

theorem totalSolved_filter_counted (l : List Stat) :
    totalSolved (l.filter isCountedLabel) = totalSolved l := by
  have he := find_filter_counted "Easy" l (fun stat hs => by simp [isCountedLabel, hs])
  have hm := find_filter_counted "Medium" l (fun stat hs => by simp [isCountedLabel, hs])
  have hh := find_filter_counted "Hard" l (fun stat hs => by simp [isCountedLabel, hs])
  simp only [totalSolved, easySolved, mediumSolved, hardSolved, he, hm, hh]

/-- The handler on a matched user whose profile and submission list are present. -/
theorem postApiUser_matched (upstream : UpstreamRequest → Except JsError UserData)
    (username : String) (userData : UserData) (data : GraphQLData) (matchedUser : MatchedUser)
    (profile : Profile) (submissionStats : List Stat)
    (hup : upstream (upstreamRequest username) = .ok userData)
    (hdata : userData.data = some data)
    (hm : data.matchedUser = some matchedUser)
    (hp : matchedUser.profile = some profile)
    (hs : matchedUser.submitStats = some { acSubmissionNum := some submissionStats }) :
    postApiUser upstream username =
      { requests := [upstreamRequest username], logged := []
        response :=
          { status := 200
            body := .profile
              (formattedData matchedUser profile submissionStats data.userContestRanking) } } := by
  apply postApiUser_of_ok upstream username userData _ hup
  simp [tryBody, hdata, hm, hp, hs]

/-- The status the handler answers for a matched user: 200 when the profile
object and the submission list are both present, 500 otherwise. -/
theorem matched_status (upstream : UpstreamRequest → Except JsError UserData)
    (username : String) (userData : UserData) (data : GraphQLData) (matchedUser : MatchedUser)
    (hup : upstream (upstreamRequest username) = .ok userData)
    (hdata : userData.data = some data)
    (hm : data.matchedUser = some matchedUser) :
    (postApiUser upstream username).response.status =
      if (matchedUser.profile.isSome ∧
          (matchedUser.submitStats.bind (fun st => st.acSubmissionNum)).isSome)
      then 200 else 500 := by
  cases hs : matchedUser.submitStats with
  | none =>
    rw [postApiUser_of_throw upstream username userData (.typeError "acSubmissionNum") hup
      (by simp [tryBody, hdata, hm, hs])]
    simp
  | some submitStats =>
    cases hl : submitStats.acSubmissionNum with
    | none =>
      rw [postApiUser_of_throw upstream username userData (.typeError "find") hup
        (by simp [tryBody, hdata, hm, hs, hl])]
      simp [hl]
    | some submissionStats =>
      cases hp : matchedUser.profile with
      | none =>
        rw [postApiUser_of_throw upstream username userData (.typeError "realName") hup
          (by simp [tryBody, hdata, hm, hs, hl, hp])]
        simp
      | some profile =>
        rw [postApiUser_of_ok upstream username userData
          { status := 200
            body := .profile
              (formattedData matchedUser profile submissionStats data.userContestRanking) }
          hup (by simp [tryBody, hdata, hm, hs, hl, hp])]
        simp [hl]

theorem find_perm_of_atMostOnce (label : String) (l1 l2 : List Stat) (h : l1.Perm l2)
    (h1 : AtMostOnce label l1) :
    l1.find? (fun stat => stat.difficulty == label) =
      l2.find? (fun stat => stat.difficulty == label) := by
  rw [← List.filter_head?, ← List.filter_head?]
  have hp := h.filter (fun stat => stat.difficulty == label)
  unfold AtMostOnce at h1
  cases hf : l1.filter (fun stat => stat.difficulty == label) with
  | nil => rw [hf] at hp; rw [← hp.nil_eq]
  | cons a t =>
    cases t with
    | nil => rw [hf] at hp; rw [← List.singleton_perm.mp hp]
    | cons b t => rw [hf] at h1; simp at h1

theorem jsTrim_of_blank (s : String) (h : ∀ c ∈ s.data, isJsWhiteSpace c = true) :
    jsTrim s = "" := by
  unfold jsTrim
  rw [List.dropWhile_eq_nil_iff.mpr h]
  rfl

/-! ## Claims about the server handler -/

/-- C1: when the upstream call resolves with a data envelope whose `matchedUser`
is null, the handler answers 404 with the "User not found" message, and not 500,
whatever `userContestRanking` holds. -/
theorem notFound_when_matchedUser_null (upstream : UpstreamRequest → Except JsError UserData)
    (username : String) (userData : UserData) (data : GraphQLData)
    (hup : upstream (upstreamRequest username) = .ok userData)
    (hdata : userData.data = some data)
    (hm : data.matchedUser = none) :
    (postApiUser upstream username).response =
        { status := 404, body := .error userNotFoundMessage } ∧
      (postApiUser upstream username).response.status ≠ 500 ∧
      userNotFoundMessage = "User not found. Please check the username and try again." := by
  have hbody : tryBody userData = .ok { status := 404, body := .error userNotFoundMessage } := by
    simp [tryBody, hdata, hm]
  rw [postApiUser_of_ok upstream username userData _ hup hbody]
  exact ⟨rfl, by simp, rfl⟩

/-- C1 at the identifier "ghost", with a contest record present in the answer. -/
theorem notFound_when_matchedUser_null_witness :
    (postApiUser (resolvesWith (bodyOf none (some someContest))) "ghost").response =
        { status := 404, body := .error userNotFoundMessage } ∧
      (postApiUser (resolvesWith (bodyOf none (some someContest))) "ghost").response.status ≠ 500 ∧
      userNotFoundMessage = "User not found. Please check the username and try again." :=
  notFound_when_matchedUser_null (resolvesWith (bodyOf none (some someContest))) "ghost"
    (bodyOf none (some someContest)) _ rfl rfl rfl

/-- C2: whenever the handler answers with a profile record, its `totalSolved` is
the sum of its own `easySolved`, `mediumSolved` and `hardSolved`; and it is the
total of the upstream submission list with every entry not labelled Easy, Medium
or Hard removed, so no other entry (such as "All") contributes. -/
theorem totalSolved_is_sum_of_three (upstream : UpstreamRequest → Except JsError UserData)
    (username : String) (fd : FormattedData)
    (h : (postApiUser upstream username).response = { status := 200, body := .profile fd }) :
    fd.totalSolved = fd.easySolved + fd.mediumSolved + fd.hardSolved ∧
      ∃ userData data matchedUser submissionStats,
        upstream (upstreamRequest username) = .ok userData ∧
        userData.data = some data ∧ data.matchedUser = some matchedUser ∧
        matchedUser.submitStats = some { acSubmissionNum := some submissionStats } ∧
        fd.totalSolved = totalSolved (submissionStats.filter isCountedLabel) := by
  obtain ⟨userData, hup, hbody⟩ := postApiUser_profile_inv upstream username 200 fd h
  obtain ⟨data, matchedUser, profile, submissionStats, hdata, hm, _, hs, _, hfd⟩ :=
    tryBody_profile_inv userData 200 fd hbody
  subst hfd
  refine ⟨rfl, userData, data, matchedUser, submissionStats, hup, hdata, hm, hs, ?_⟩
  rw [totalSolved_filter_counted]
  rfl

/-- C2 on a list that carries an "All" entry of 9: the total is 9 = 5 + 3 + 1, not 18. -/
theorem totalSolved_is_sum_of_three_witness :
    (postApiUser
        (resolvesWith (bodyOf (some (userWithStats "alice"
          [⟨"All", 9⟩, ⟨"Easy", 5⟩, ⟨"Medium", 3⟩, ⟨"Hard", 1⟩])) none)) "alice").response =
      { status := 200
        body := .profile
          { username := "alice", realName := none, avatar := none, ranking := none
            totalSolved := 9, easySolved := 5, mediumSolved := 3, hardSolved := 1
            contestRating := 0, contestRanking := 0, attendedContests := 0 } } ∧
    (9 : Int) = 5 + 3 + 1 :=
  ⟨by decide,
   (totalSolved_is_sum_of_three
      (resolvesWith (bodyOf (some (userWithStats "alice"
        [⟨"All", 9⟩, ⟨"Easy", 5⟩, ⟨"Medium", 3⟩, ⟨"Hard", 1⟩])) none))
      "alice"
      { username := "alice", realName := none, avatar := none, ranking := none
        totalSolved := 9, easySolved := 5, mediumSolved := 3, hardSolved := 1
        contestRating := 0, contestRanking := 0, attendedContests := 0 }
      (by decide)).1⟩

/-- C3, as the code has it: for a matched user whose profile object and
submission list are present,
the handler answers 200 and each of `easySolved`, `mediumSolved`, `hardSolved` is
the count of the first entry with that label, and 0 when no entry has the label;
`totalSolved` is their sum. For the list Easy 5, Medium 3, Hard 1 the fields are
5, 3, 1 and the total is 9. -/
theorem solved_fields_first_match_or_zero
    (upstream : UpstreamRequest → Except JsError UserData)
    (username : String) (userData : UserData) (data : GraphQLData) (matchedUser : MatchedUser)
    (profile : Profile) (submissionStats : List Stat)
    (hup : upstream (upstreamRequest username) = .ok userData)
    (hdata : userData.data = some data)
    (hm : data.matchedUser = some matchedUser)
    (hp : matchedUser.profile = some profile)
    (hs : matchedUser.submitStats = some { acSubmissionNum := some submissionStats }) :
    ∃ fd, (postApiUser upstream username).response = { status := 200, body := .profile fd } ∧
      FirstMatchOrZero "Easy" submissionStats fd.easySolved ∧
      FirstMatchOrZero "Medium" submissionStats fd.mediumSolved ∧
      FirstMatchOrZero "Hard" submissionStats fd.hardSolved ∧
      fd.totalSolved = fd.easySolved + fd.mediumSolved + fd.hardSolved ∧
      (submissionStats = [⟨"Easy", 5⟩, ⟨"Medium", 3⟩, ⟨"Hard", 1⟩] →
        fd.easySolved = 5 ∧ fd.mediumSolved = 3 ∧ fd.hardSolved = 1 ∧ fd.totalSolved = 9) := by
  refine ⟨formattedData matchedUser profile submissionStats data.userContestRanking, ?_,
    firstMatchOrZero_find "Easy" submissionStats, firstMatchOrZero_find "Medium" submissionStats,
    firstMatchOrZero_find "Hard" submissionStats, rfl, ?_⟩
  · rw [postApiUser_matched upstream username userData data matchedUser profile submissionStats
      hup hdata hm hp hs]
  · intro hl
    subst hl
    simp only [formattedData]
    decide

/-- C3 at the list Easy 5, Medium 3, Hard 1 of the specification. -/
theorem solved_fields_first_match_or_zero_witness :
    ∃ fd, (postApiUser (resolvesWith (bodyOf (some (userWithStats "alice"
          [⟨"Easy", 5⟩, ⟨"Medium", 3⟩, ⟨"Hard", 1⟩])) none)) "alice").response =
        { status := 200, body := .profile fd } ∧
      fd.easySolved = 5 ∧ fd.mediumSolved = 3 ∧ fd.hardSolved = 1 ∧ fd.totalSolved = 9 := by
  obtain ⟨fd, hres, _, _, _, _, hvals⟩ :=
    solved_fields_first_match_or_zero
      (resolvesWith (bodyOf (some (userWithStats "alice"
        [⟨"Easy", 5⟩, ⟨"Medium", 3⟩, ⟨"Hard", 1⟩])) none))
      "alice" _ _ _ _ [⟨"Easy", 5⟩, ⟨"Medium", 3⟩, ⟨"Hard", 1⟩] rfl rfl rfl rfl rfl
  exact ⟨fd, hres, hvals rfl⟩

/-- C3 as stated fails: for a matched user with the list Easy 5, Medium 3, Hard 1
and a contest record, but a null `profile`, the handler answers 500 and sends no
record, so no solved field is 5, 3 or 1 and no total is 9. -/
theorem solved_fields_lost_without_profile :
    (postApiUser (resolvesWith (bodyOf (some (userWithoutProfile "alice"
        [⟨"Easy", 5⟩, ⟨"Medium", 3⟩, ⟨"Hard", 1⟩])) (some someContest))) "alice").response =
        { status := 500, body := .error failedMessage } ∧
      ¬ ∃ fd, (postApiUser (resolvesWith (bodyOf (some (userWithoutProfile "alice"
          [⟨"Easy", 5⟩, ⟨"Medium", 3⟩, ⟨"Hard", 1⟩])) (some someContest))) "alice").response =
        { status := 200, body := .profile fd } := by
  have h : (postApiUser (resolvesWith (bodyOf (some (userWithoutProfile "alice"
      [⟨"Easy", 5⟩, ⟨"Medium", 3⟩, ⟨"Hard", 1⟩])) (some someContest))) "alice").response =
      { status := 500, body := .error failedMessage } := by decide
  refine ⟨h, ?_⟩
  rintro ⟨fd, hfd⟩
  rw [h] at hfd
  simp at hfd

/-- C4, as the code has it: for a matched user whose `userContestRanking` is
null the handler never
answers 404, and, the profile object and submission list being present, it
answers 200 with `contestRating`, `contestRanking` and `attendedContests` all 0
and the solved counts computed from the list. -/
theorem contest_fields_zero_when_absent
    (upstream : UpstreamRequest → Except JsError UserData)
    (username : String) (userData : UserData) (data : GraphQLData) (matchedUser : MatchedUser)
    (hup : upstream (upstreamRequest username) = .ok userData)
    (hdata : userData.data = some data)
    (hm : data.matchedUser = some matchedUser)
    (hc : data.userContestRanking = none) :
    (postApiUser upstream username).response.status ≠ 404 ∧
      ∀ profile submissionStats, matchedUser.profile = some profile →
        matchedUser.submitStats = some { acSubmissionNum := some submissionStats } →
        ∃ fd, (postApiUser upstream username).response =
            { status := 200, body := .profile fd } ∧
          fd.contestRating = 0 ∧ fd.contestRanking = 0 ∧ fd.attendedContests = 0 ∧
          fd.totalSolved = totalSolved submissionStats := by
  constructor
  · rw [matched_status upstream username userData data matchedUser hup hdata hm]
    split_ifs <;> simp
  · intro profile submissionStats hp hs
    refine ⟨formattedData matchedUser profile submissionStats data.userContestRanking, ?_, ?_⟩
    · rw [postApiUser_matched upstream username userData data matchedUser profile submissionStats
        hup hdata hm hp hs]
    · rw [hc]
      exact ⟨rfl, rfl, rfl, rfl⟩

/-- C4 at the scenario of the specification: identifier "alice", counts Easy 10,
Medium 0, Hard 0 and no contest record. -/
theorem contest_fields_zero_when_absent_witness :
    (postApiUser (resolvesWith (bodyOf (some (userWithStats "alice"
        [⟨"Easy", 10⟩, ⟨"Medium", 0⟩, ⟨"Hard", 0⟩])) none)) "alice").response =
      { status := 200
        body := .profile
          { username := "alice", realName := none, avatar := none, ranking := none
            totalSolved := 10, easySolved := 10, mediumSolved := 0, hardSolved := 0
            contestRating := 0, contestRanking := 0, attendedContests := 0 } } ∧
    ∃ fd, (postApiUser (resolvesWith (bodyOf (some (userWithStats "alice"
          [⟨"Easy", 10⟩, ⟨"Medium", 0⟩, ⟨"Hard", 0⟩])) none)) "alice").response =
        { status := 200, body := .profile fd } ∧
      fd.contestRating = 0 ∧ fd.contestRanking = 0 ∧ fd.attendedContests = 0 ∧
      fd.totalSolved = totalSolved [⟨"Easy", 10⟩, ⟨"Medium", 0⟩, ⟨"Hard", 0⟩] :=
  ⟨by decide,
   (contest_fields_zero_when_absent
      (resolvesWith (bodyOf (some (userWithStats "alice"
        [⟨"Easy", 10⟩, ⟨"Medium", 0⟩, ⟨"Hard", 0⟩])) none))
      "alice" _ _ _ rfl rfl rfl rfl).2
      { realName := none, userAvatar := none, ranking := none }
      [⟨"Easy", 10⟩, ⟨"Medium", 0⟩, ⟨"Hard", 0⟩] rfl rfl⟩

/-- C4 as stated fails: for the identifier "alice", a matched user with counts
Easy 10, Medium 0, Hard 0 and no contest record, but a null `profile`, the
handler answers 500, not 200, and sends no contest fields at all. -/
theorem absent_contest_without_profile_answers_500 :
    (postApiUser (resolvesWith (bodyOf (some (userWithoutProfile "alice"
        [⟨"Easy", 10⟩, ⟨"Medium", 0⟩, ⟨"Hard", 0⟩])) none)) "alice").response =
        { status := 500, body := .error failedMessage } ∧
      (postApiUser (resolvesWith (bodyOf (some (userWithoutProfile "alice"
        [⟨"Easy", 10⟩, ⟨"Medium", 0⟩, ⟨"Hard", 0⟩])) none)) "alice").response.status ≠ 200 := by
  decide

/-- C5: when the upstream call rejects, the handler answers 500 with the fixed
message of line 100, whatever the error is: two runs whose upstream calls reject
with any two errors give the same response, and the error reaches only the
server console. -/
theorem rejected_upstream_generic_500
    (upstream1 upstream2 : UpstreamRequest → Except JsError UserData)
    (username : String) (e1 e2 : JsError)
    (h1 : upstream1 (upstreamRequest username) = .error e1)
    (h2 : upstream2 (upstreamRequest username) = .error e2) :
    (postApiUser upstream1 username).response =
        { status := 500, body := .error "Failed to fetch user data. Please try again later." } ∧
      (postApiUser upstream1 username).response = (postApiUser upstream2 username).response ∧
      (postApiUser upstream1 username).logged = [e1] := by
  rw [postApiUser_of_rejected upstream1 username e1 h1,
    postApiUser_of_rejected upstream2 username e2 h2]
  exact ⟨rfl, rfl, rfl⟩

/-- C5 at two different transport errors. -/
theorem rejected_upstream_generic_500_witness :
    (postApiUser (rejectsWith (.rejected "connect ECONNREFUSED 10.0.0.7:443")) "alice").response =
        { status := 500, body := .error "Failed to fetch user data. Please try again later." } ∧
      (postApiUser (rejectsWith (.rejected "connect ECONNREFUSED 10.0.0.7:443")) "alice").response =
        (postApiUser (rejectsWith (.rejected "Request failed with status code 429"))
          "alice").response ∧
      (postApiUser (rejectsWith (.rejected "connect ECONNREFUSED 10.0.0.7:443")) "alice").logged =
        [.rejected "connect ECONNREFUSED 10.0.0.7:443"] :=
  rejected_upstream_generic_500 _ _ "alice" _ _ rfl rfl

/-- C9: when the upstream call resolves with a body of unexpected shape (the data
envelope is missing, or the matched user has no `submitStats` object or no
`acSubmissionNum` list), the handler answers 500 with the generic message: its
status is not 404 and its body is not a profile record. -/
theorem unexpected_shape_gives_500
    (upstream : UpstreamRequest → Except JsError UserData)
    (username : String) (userData : UserData)
    (hup : upstream (upstreamRequest username) = .ok userData)
    (hshape : userData.data = none ∨
      ∃ data matchedUser, userData.data = some data ∧ data.matchedUser = some matchedUser ∧
        (matchedUser.submitStats = none ∨
          matchedUser.submitStats = some { acSubmissionNum := none })) :
    (postApiUser upstream username).response =
        { status := 500, body := .error failedMessage } ∧
      (postApiUser upstream username).response.status ≠ 404 ∧
      ∀ fd, (postApiUser upstream username).response.body ≠ .profile fd := by
  have hthrow : ∃ e, tryBody userData = .error e := by
    rcases hshape with hnone | ⟨data, matchedUser, hdata, hm, hs | hs⟩
    · exact ⟨.typeError "matchedUser", by simp [tryBody, hnone]⟩
    · exact ⟨.typeError "acSubmissionNum", by simp [tryBody, hdata, hm, hs]⟩
    · exact ⟨.typeError "find", by simp [tryBody, hdata, hm, hs]⟩
  obtain ⟨e, he⟩ := hthrow
  rw [postApiUser_of_throw upstream username userData e hup he]
  refine ⟨rfl, by simp, ?_⟩
  intro fd
  simp

/-- C9 at a matched user without `submitStats`. -/
theorem unexpected_shape_gives_500_witness :
    (postApiUser (resolvesWith (bodyOf (some (userWithoutStats "alice")) none)) "alice").response =
        { status := 500, body := .error failedMessage } ∧
      (postApiUser (resolvesWith (bodyOf (some (userWithoutStats "alice")) none))
        "alice").response.status ≠ 404 ∧
      ∀ fd, (postApiUser (resolvesWith (bodyOf (some (userWithoutStats "alice")) none))
        "alice").response.body ≠ .profile fd :=
  unexpected_shape_gives_500 _ "alice" _ rfl (Or.inr ⟨_, _, rfl, rfl, Or.inl rfl⟩)

/-- C7, as the code has it: for a matched user with a submission list, when the
profile object is present the handler answers 200, copies `realName`,
`userAvatar` and `ranking` from it (null where upstream has null) and computes the
numeric fields as usual; when the profile object itself is null the handler
answers 500 with the generic message. -/
theorem profile_fields_copied_or_500
    (upstream : UpstreamRequest → Except JsError UserData)
    (username : String) (userData : UserData) (data : GraphQLData) (matchedUser : MatchedUser)
    (submissionStats : List Stat)
    (hup : upstream (upstreamRequest username) = .ok userData)
    (hdata : userData.data = some data)
    (hm : data.matchedUser = some matchedUser)
    (hs : matchedUser.submitStats = some { acSubmissionNum := some submissionStats }) :
    (∀ profile, matchedUser.profile = some profile →
      ∃ fd, (postApiUser upstream username).response = { status := 200, body := .profile fd } ∧
        fd.realName = profile.realName ∧ fd.avatar = profile.userAvatar ∧
        fd.ranking = profile.ranking ∧
        fd.easySolved = easySolved submissionStats ∧
        fd.mediumSolved = mediumSolved submissionStats ∧
        fd.hardSolved = hardSolved submissionStats ∧
        fd.totalSolved = totalSolved submissionStats ∧
        fd.contestRating = orZero (data.userContestRanking.bind (fun c => c.rating)) ∧
        fd.contestRanking = orZero (data.userContestRanking.bind (fun c => c.globalRanking)) ∧
        fd.attendedContests =
          orZero (data.userContestRanking.bind (fun c => c.attendedContestsCount))) ∧
    (matchedUser.profile = none →
      (postApiUser upstream username).response =
        { status := 500, body := .error failedMessage }) := by
  constructor
  · intro profile hp
    refine ⟨formattedData matchedUser profile submissionStats data.userContestRanking, ?_,
      rfl, rfl, rfl, rfl, rfl, rfl, rfl, rfl, rfl, rfl⟩
    rw [postApiUser_matched upstream username userData data matchedUser profile submissionStats
      hup hdata hm hp hs]
  · intro hp
    have hthrow : tryBody userData = .error (.typeError "realName") := by
      simp [tryBody, hdata, hm, hs, hp]
    rw [postApiUser_of_throw upstream username userData _ hup hthrow]

/-- C7 amended, at a profile object whose three fields are null. -/
theorem profile_fields_copied_or_500_witness :
    ∃ fd, (postApiUser (resolvesWith (bodyOf (some (userWithStats "alice" [⟨"Easy", 10⟩]))
          (some someContest))) "alice").response = { status := 200, body := .profile fd } ∧
      fd.realName = none ∧ fd.avatar = none ∧ fd.ranking = none ∧
      fd.totalSolved = 10 ∧ fd.contestRating = 1500 ∧ fd.contestRanking = 42 ∧
      fd.attendedContests = 3 := by
  obtain ⟨fd, hres, h1, h2, h3, _, _, _, h7, h8, h9, h10⟩ :=
    (profile_fields_copied_or_500
      (resolvesWith (bodyOf (some (userWithStats "alice" [⟨"Easy", 10⟩])) (some someContest)))
      "alice" _ _ _ [⟨"Easy", 10⟩] rfl rfl rfl rfl).1
      { realName := none, userAvatar := none, ranking := none } rfl
  refine ⟨fd, hres, h1, h2, h3, ?_, ?_, ?_, ?_⟩
  · rw [h7]; decide
  · rw [h8]; decide
  · rw [h9]; decide
  · rw [h10]; decide

/-- C7 as stated fails: a matched user whose `profile` is null gets the 500 answer,
not a profile record with null name, avatar and ranking. -/
theorem null_profile_answers_500 :
    (postApiUser (resolvesWith (bodyOf (some (userWithoutProfile "alice" [⟨"Easy", 10⟩])) none))
        "alice").response = { status := 500, body := .error failedMessage } ∧
      ¬ ∃ fd, (postApiUser (resolvesWith
          (bodyOf (some (userWithoutProfile "alice" [⟨"Easy", 10⟩])) none)) "alice").response =
        { status := 200, body := .profile fd } := by
  have h : (postApiUser (resolvesWith
      (bodyOf (some (userWithoutProfile "alice" [⟨"Easy", 10⟩])) none)) "alice").response =
      { status := 500, body := .error failedMessage } := by decide
  refine ⟨h, ?_⟩
  rintro ⟨fd, hfd⟩
  rw [h] at hfd
  simp at hfd

/-- C8, as the code has it: the `username` of a successful result is the
`username` field of the `matchedUser` record that upstream returned for the
request carrying the identifier; the identifier itself only goes into that
request. -/
theorem username_is_upstream_username
    (upstream : UpstreamRequest → Except JsError UserData)
    (username : String) (fd : FormattedData)
    (h : (postApiUser upstream username).response = { status := 200, body := .profile fd }) :
    (postApiUser upstream username).requests = [{ url := LEETCODE_GRAPHQL, username := username }] ∧
      ∃ userData data matchedUser,
        upstream { url := LEETCODE_GRAPHQL, username := username } = .ok userData ∧
        userData.data = some data ∧ data.matchedUser = some matchedUser ∧
        fd.username = matchedUser.username := by
  obtain ⟨userData, hup, hbody⟩ := postApiUser_profile_inv upstream username 200 fd h
  obtain ⟨data, matchedUser, profile, submissionStats, hdata, hm, _, _, _, hfd⟩ :=
    tryBody_profile_inv userData 200 fd hbody
  refine ⟨?_, userData, data, matchedUser, hup, hdata, hm, ?_⟩
  · rw [postApiUser_of_ok upstream username userData _ hup hbody]
    rfl
  · rw [hfd]
    rfl

/-- C8 amended, at the scenario of the specification, where upstream echoes "alice". -/
theorem username_is_upstream_username_witness :
    (postApiUser (resolvesWith (bodyOf (some (userWithStats "alice"
        [⟨"Easy", 10⟩, ⟨"Medium", 0⟩, ⟨"Hard", 0⟩])) none)) "alice").requests =
        [{ url := LEETCODE_GRAPHQL, username := "alice" }] ∧
      ∃ userData data matchedUser,
        resolvesWith (bodyOf (some (userWithStats "alice"
          [⟨"Easy", 10⟩, ⟨"Medium", 0⟩, ⟨"Hard", 0⟩])) none)
          { url := LEETCODE_GRAPHQL, username := "alice" } = .ok userData ∧
        userData.data = some data ∧ data.matchedUser = some matchedUser ∧
        "alice" = matchedUser.username :=
  username_is_upstream_username
    (resolvesWith (bodyOf (some (userWithStats "alice"
      [⟨"Easy", 10⟩, ⟨"Medium", 0⟩, ⟨"Hard", 0⟩])) none))
    "alice"
    { username := "alice", realName := none, avatar := none, ranking := none
      totalSolved := 10, easySolved := 10, mediumSolved := 0, hardSolved := 0
      contestRating := 0, contestRanking := 0, attendedContests := 0 }
    (by decide)

/-- C8 as stated fails: for the identifier "Alice", when upstream matches the
user it spells "alice", the result carries "alice", not the identifier. -/
theorem username_differs_from_identifier :
    ∃ fd, (postApiUser (resolvesWith (bodyOf (some (userWithStats "alice"
          [⟨"Easy", 10⟩, ⟨"Medium", 0⟩, ⟨"Hard", 0⟩])) none)) "Alice").response =
        { status := 200, body := .profile fd } ∧
      fd.username = "alice" ∧ fd.username ≠ "Alice" :=
  ⟨{ username := "alice", realName := none, avatar := none, ranking := none
     totalSolved := 10, easySolved := 10, mediumSolved := 0, hardSolved := 0
     contestRating := 0, contestRanking := 0, attendedContests := 0 },
   by decide, rfl, by decide⟩

/-! ## The blank identifier -/

/-- C6, as the code has it: for an identifier that is empty or made of white
space only, `fetchUserData` in the client posts nothing and only sets the error
"Please enter a username", whatever the backend would answer; the server handler
has no such check and issues one upstream request for any identifier it is
given. -/
theorem blank_identifier_stopped_by_client
    (post1 post2 : String → Except AxiosError FormattedData) (st : ClientState)
    (upstream : UpstreamRequest → Except JsError UserData) (username : String)
    (hblank : ∀ c ∈ username.data, isJsWhiteSpace c = true) :
    fetchUserData post1 st username = { st with error := "Please enter a username" } ∧
      (fetchUserData post1 st username).posted = st.posted ∧
      fetchUserData post1 st username = fetchUserData post2 st username ∧
      (postApiUser upstream username).requests =
        [{ url := LEETCODE_GRAPHQL, username := username }] := by
  have hclient : ∀ post, fetchUserData post st username =
      { st with error := "Please enter a username" } := by
    intro post
    simp [fetchUserData, jsTrim_of_blank username hblank]
  refine ⟨hclient post1, ?_, ?_, ?_⟩
  · rw [hclient post1]
  · rw [hclient post1, hclient post2]
  · unfold postApiUser
    cases (upstream (upstreamRequest username)).bind tryBody <;> rfl

/-- C6 amended, at the identifier made of a space and a tab. -/
theorem blank_identifier_stopped_by_client_witness :
    fetchUserData (fun _ => .error { response := none })
        { userData := none, loading := false, error := "", lastLeetcodeUsername := none
          posted := [] } " \t" =
      { userData := none, loading := false, error := "Please enter a username"
        lastLeetcodeUsername := none, posted := [] } ∧
    (postApiUser (resolvesWith (bodyOf none none)) " \t").requests =
      [{ url := LEETCODE_GRAPHQL, username := " \t" }] :=
  have h := blank_identifier_stopped_by_client
    (fun _ => .error { response := none }) (fun _ => .error { response := none })
    { userData := none, loading := false, error := "", lastLeetcodeUsername := none
      posted := [] }
    (resolvesWith (bodyOf none none)) " \t" (by decide)
  ⟨h.1, h.2.2.2⟩

/-- C6 as stated fails: given the identifier " ", the server handler does call
upstream, and its answer follows what upstream says (404 when no user matches,
500 when the call rejects) instead of being one fixed invalid-input result. -/
theorem blank_identifier_reaches_upstream :
    (postApiUser (resolvesWith (bodyOf none none)) " ").requests =
        [{ url := "https://leetcode.com/graphql", username := " " }] ∧
      (postApiUser (resolvesWith (bodyOf none none)) " ").response =
        { status := 404, body := .error userNotFoundMessage } ∧
      (postApiUser (rejectsWith (.rejected "timeout")) " ").response =
        { status := 500, body := .error failedMessage } := by
  decide

/-! ## Order of the submission list -/

/-- C10: when each of the labels Easy, Medium and Hard occurs at most once in
the submission list, every permutation of the list gives the same `easySolved`,
`mediumSolved`, `hardSolved` and `totalSolved` (hence the same record); and
there is a list with a repeated label two permutations of which give different
results. -/
theorem solved_counts_order_independent :
    (∀ l1 l2 : List Stat, l1.Perm l2 →
      AtMostOnce "Easy" l1 → AtMostOnce "Medium" l1 → AtMostOnce "Hard" l1 →
      easySolved l1 = easySolved l2 ∧ mediumSolved l1 = mediumSolved l2 ∧
        hardSolved l1 = hardSolved l2 ∧ totalSolved l1 = totalSolved l2 ∧
        ∀ matchedUser profile contestData,
          formattedData matchedUser profile l1 contestData =
            formattedData matchedUser profile l2 contestData) ∧
    (∃ l1 l2 : List Stat, l1.Perm l2 ∧ ¬ AtMostOnce "Easy" l1 ∧
      easySolved l1 ≠ easySolved l2 ∧ totalSolved l1 ≠ totalSolved l2) := by
  constructor
  · intro l1 l2 hperm he hm hh
    have h1 : easySolved l1 = easySolved l2 := by
      simp only [easySolved, find_perm_of_atMostOnce "Easy" l1 l2 hperm he]
    have h2 : mediumSolved l1 = mediumSolved l2 := by
      simp only [mediumSolved, find_perm_of_atMostOnce "Medium" l1 l2 hperm hm]
    have h3 : hardSolved l1 = hardSolved l2 := by
      simp only [hardSolved, find_perm_of_atMostOnce "Hard" l1 l2 hperm hh]
    have h4 : totalSolved l1 = totalSolved l2 := by
      simp only [totalSolved, h1, h2, h3]
    refine ⟨h1, h2, h3, h4, ?_⟩
    intro matchedUser profile contestData
    simp only [formattedData, h1, h2, h3, h4]
  · refine ⟨[⟨"Easy", 1⟩, ⟨"Easy", 2⟩], [⟨"Easy", 2⟩, ⟨"Easy", 1⟩], List.Perm.swap _ _ _, ?_, ?_, ?_⟩
    · unfold AtMostOnce; decide
    · decide
    · decide

/-- C10 at the list Hard 1, Easy 5, Medium 3 and its sorted rearrangement. -/
theorem solved_counts_order_independent_witness :
    totalSolved [⟨"Hard", 1⟩, ⟨"Easy", 5⟩, ⟨"Medium", 3⟩] =
      totalSolved [⟨"Easy", 5⟩, ⟨"Medium", 3⟩, ⟨"Hard", 1⟩] :=
  (solved_counts_order_independent.1
    [⟨"Hard", 1⟩, ⟨"Easy", 5⟩, ⟨"Medium", 3⟩] [⟨"Easy", 5⟩, ⟨"Medium", 3⟩, ⟨"Hard", 1⟩]
    (by decide) (by unfold AtMostOnce; decide) (by unfold AtMostOnce; decide)
    (by unfold AtMostOnce; decide)).2.2.2.1

end LeetCodeTracker
